import Mathlib

/-!
Shallow embedding of the black-hole renderer in model.py.

The source computes, per animation frame, a 2D intensity field: a lensed
background lookup, relativistic compositing (time dilation, Doppler factor,
horizon-proximity brightening, a clip to an interval), an additive photon
ring glow, and a final interior mask.  Machine floating point is modelled by
real arithmetic; numpy array operations are modelled per cell as functions of
the row index i and the column index j.
-/

open Real Filter

noncomputable section

/-- Clipping of a value to an interval, mirroring numpy clip: first the lower
bound is applied, then the upper bound. -/
def npClip (x lo hi : ℝ) : ℝ := min hi (max lo x)

/-- Truncation toward zero, mirroring the python int conversion of a float. -/
def truncInt (x : ℝ) : ℤ := if 0 ≤ x then ⌊x⌋ else ⌈x⌉

/-- Four-quadrant arctangent, mirroring numpy arctan2 (with arctan2 0 0 = 0). -/
def atan2 (y x : ℝ) : ℝ :=
  if 0 < x then Real.arctan (y / x)
  else if x < 0 then
    (if 0 ≤ y then Real.arctan (y / x) + π else Real.arctan (y / x) - π)
  else
    (if 0 < y then π / 2 else if y < 0 then -(π / 2) else 0)

/-- Parameters stored by the BlackHolePhysics class (model.py lines 7 to 12). -/
structure BlackHolePhysics where
  M : ℝ
  a : ℝ
  rs : ℝ
  c : ℝ

/-- Constructor of BlackHolePhysics (model.py lines 8 to 12): it stores the
mass, a = spin * mass, rs = 2 * mass and c = 1, performing no validation. -/
def BlackHolePhysics.init (mass spin : ℝ) : BlackHolePhysics :=
  ⟨mass, spin * mass, 2 * mass, 1⟩

/-- schwarzschild_metric_effects (model.py lines 14 to 18): time dilation and
spatial curvature at radius r. -/
def schwarzschild_metric_effects (p : BlackHolePhysics) (r : ℝ) : ℝ × ℝ :=
  (Real.sqrt (max (1 - p.rs / r) 0.01), 1.0 / max (1 - p.rs / r) 0.01)

/-- gravitational_lensing (model.py lines 20 to 33): the deflection vector at
(x, y).  The radius is floored at 0.1, the strength is 4 M / r, and the
deflection is perpendicular to the radial direction. -/
def gravitational_lensing (p : BlackHolePhysics) (x y : ℝ) : ℝ × ℝ :=
  (-(4 * p.M / max (Real.sqrt (x ^ 2 + y ^ 2)) 0.1)
      * (y / max (Real.sqrt (x ^ 2 + y ^ 2)) 0.1),
   (4 * p.M / max (Real.sqrt (x ^ 2 + y ^ 2)) 0.1)
      * (x / max (Real.sqrt (x ^ 2 + y ^ 2)) 0.1))

/-- Magnitude of the deflection vector returned by gravitational_lensing. -/
def deflectionMag (p : BlackHolePhysics) (x y : ℝ) : ℝ :=
  Real.sqrt ((gravitational_lensing p x y).1 ^ 2
    + (gravitational_lensing p x y).2 ^ 2)

/-- doppler_shift (model.py lines 35 to 45): r = sqrt (x^2 + y^2) with no
floor, omega_drag = 2 M a / (r^3 + a^2 r), v_phi = omega_drag * r, and the
factor 1 / (1 + v_phi * sin (phi + rotation_angle)) clipped to [0.3, 2.0]. -/
def doppler_shift (p : BlackHolePhysics) (x y rotation_angle : ℝ) : ℝ :=
  npClip (1.0 / (1 +
      (2 * p.M * p.a
          / (Real.sqrt (x ^ 2 + y ^ 2) ^ 3 + p.a ^ 2 * Real.sqrt (x ^ 2 + y ^ 2))
        * Real.sqrt (x ^ 2 + y ^ 2))
      * Real.sin (atan2 y x + rotation_angle))) 0.3 2.0

/-- Doppler factor as the spec describes it: the radius receives a 0.1 floor
before it is used (spec section 3 states the radius is always clamped away
from 0 with floor 0.1 before use as a divisor, as gravitational_lensing does).
Stated only to compare against doppler_shift, which applies no floor. -/
def doppler_shift_floored (p : BlackHolePhysics) (x y rotation_angle : ℝ) : ℝ :=
  npClip (1.0 / (1 +
      (2 * p.M * p.a
          / ((max (Real.sqrt (x ^ 2 + y ^ 2)) 0.1) ^ 3
              + p.a ^ 2 * max (Real.sqrt (x ^ 2 + y ^ 2)) 0.1)
        * max (Real.sqrt (x ^ 2 + y ^ 2)) 0.1)
      * Real.sin (atan2 y x + rotation_angle))) 0.3 2.0

/-- Coordinate of sample k of numpy linspace from -8 to 8 with N points
(model.py lines 56 to 62, extent = 8). -/
def gridCoord (N k : ℕ) : ℝ := -8 + 16 * (k : ℝ) / ((N : ℝ) - 1)

/-- True radius of grid cell (i, j): row i carries the y coordinate and
column j the x coordinate (model.py line 62). -/
def gridR (N i j : ℕ) : ℝ :=
  Real.sqrt ((gridCoord N j) ^ 2 + (gridCoord N i) ^ 2)

/-- create_background_pattern (model.py lines 64 to 73), value at one cell:
two sinusoidal patterns with grid frequency 8 plus a radial glow. -/
def backgroundPattern (N i j : ℕ) : ℝ :=
  0.5 + 0.3 * (Real.sin (gridCoord N j * 8) * Real.sin (gridCoord N i * 8))
    + 0.2 * (Real.sin (gridCoord N j * (8 * 0.7)) * Real.cos (gridCoord N i * (8 * 1.3)))
    + 0.2 * (Real.sin (gridR N i j * 2) * Real.exp (-gridR N i j / 10))

/-- Background lookup step of calculate_lensed_image (model.py lines 102 to
107): a source position (sx, sy) is looked up in the background array bg only
when it lies strictly inside the domain and the truncated index lies in
[0, N); otherwise the cell keeps its initial value 0. -/
def lookupBackground (bg : ℕ → ℕ → ℝ) (N : ℕ) (sx sy : ℝ) : ℝ :=
  if |sx| < 8 ∧ |sy| < 8 then
    if 0 ≤ truncInt ((sx + 8) * (N : ℝ) / 16)
        ∧ truncInt ((sx + 8) * (N : ℝ) / 16) < (N : ℤ)
        ∧ 0 ≤ truncInt ((sy + 8) * (N : ℝ) / 16)
        ∧ truncInt ((sy + 8) * (N : ℝ) / 16) < (N : ℤ) then
      bg (truncInt ((sy + 8) * (N : ℝ) / 16)).toNat
        (truncInt ((sx + 8) * (N : ℝ) / 16)).toNat
    else 0
  else 0

/-- calculate_lensed_image (model.py lines 75 to 109), value at one cell: the
deflection is rotated by the rotation angle, the source position is the cell
position plus the rotated deflection, cells with true radius below rs * 1.1
are zeroed early, and the rest look up the background at the source. -/
def calculate_lensed_image (p : BlackHolePhysics) (bg : ℕ → ℕ → ℝ) (N : ℕ)
    (rotation_angle : ℝ) (i j : ℕ) : ℝ :=
  if gridR N i j < p.rs * 1.1 then 0
  else
    lookupBackground bg N
      (gridCoord N j
        + ((gravitational_lensing p (gridCoord N j) (gridCoord N i)).1 * Real.cos rotation_angle
          - (gravitational_lensing p (gridCoord N j) (gridCoord N i)).2 * Real.sin rotation_angle))
      (gridCoord N i
        + ((gravitational_lensing p (gridCoord N j) (gridCoord N i)).1 * Real.sin rotation_angle
          + (gravitational_lensing p (gridCoord N j) (gridCoord N i)).2 * Real.cos rotation_angle))

/-- Brightening factor of apply_relativistic_effects (model.py lines 119 to
123): 1 + 2 M / r^2 outside the horizon, 1 inside. -/
def brighteningAt (p : BlackHolePhysics) (r : ℝ) : ℝ :=
  if p.rs < r then 1.0 + 2.0 * p.M / r ^ 2 else 1.0

/-- apply_relativistic_effects (model.py lines 111 to 126), value at one
cell: the lensed value times time dilation, Doppler factor and brightening,
clipped to [0, 2]. -/
def apply_relativistic_effects (p : BlackHolePhysics) (bg : ℕ → ℕ → ℝ) (N : ℕ)
    (rotation_angle : ℝ) (i j : ℕ) : ℝ :=
  npClip (calculate_lensed_image p bg N rotation_angle i j
      * (schwarzschild_metric_effects p (gridR N i j)).1
      * doppler_shift p (gridCoord N j) (gridCoord N i) rotation_angle
      * brighteningAt p (gridR N i j)) 0 2

/-- create_photon_sphere_glow (model.py lines 128 to 137), value at one cell:
a Gaussian ring at radius 1.5 * rs times an azimuthal modulation rotating at
four times the rotation angle. -/
def create_photon_sphere_glow (p : BlackHolePhysics) (N : ℕ)
    (rotation_angle : ℝ) (i j : ℕ) : ℝ :=
  (Real.exp (-(|gridR N i j - 1.5 * p.rs|) ^ 2 / 0.5) * 2.0)
    * (1.0 + 0.5 * Real.sin (3 * atan2 (gridCoord N i) (gridCoord N j)
        + rotation_angle * 4))

/-- Final composited cell of the animate frame function (model.py lines 152
to 165): the clipped relativistic image plus the photon glow, with cells of
true radius at most rs forced to 0. -/
def finalCell (p : BlackHolePhysics) (bg : ℕ → ℕ → ℝ) (N : ℕ)
    (rotation_angle : ℝ) (i j : ℕ) : ℝ :=
  if gridR N i j ≤ p.rs then 0
  else apply_relativistic_effects p bg N rotation_angle i j
    + create_photon_sphere_glow p N rotation_angle i j

/-- The physics instance hardcoded by the renderer constructor
(model.py line 51): mass 2.0 and spin 0.8. -/
def animPhysics : BlackHolePhysics := BlackHolePhysics.init 2.0 0.8

/-- State held by a GravitationalLensingAnimation instance (model.py lines 49
to 73): the physics parameters, the grid size, and the background field
computed once at construction. -/
structure Renderer where
  black_hole : BlackHolePhysics
  grid_size : ℕ
  background : ℕ → ℕ → ℝ

/-- Constructor of GravitationalLensingAnimation (model.py lines 50 to 54):
stores the hardcoded physics, the grid size, and the background pattern. -/
def Renderer.init (N : ℕ) : Renderer :=
  ⟨animPhysics, N, fun i j => backgroundPattern N i j⟩

/-- One frame of the animate function (model.py lines 152 to 165) as explicit
state passing: the frame methods read the renderer state and assign no
attribute of it, so the state is returned unchanged next to the frame. -/
def render (s : Renderer) (phase : ℝ) : Renderer × (ℕ → ℕ → ℝ) :=
  (s, fun i j => finalCell s.black_hole s.background s.grid_size phase i j)

end

/-! Helper lemmas shared by the claim theorems. -/

theorem npClip_le_hi (x lo hi : ℝ) : npClip x lo hi ≤ hi := min_le_left _ _

theorem lo_le_npClip (x lo hi : ℝ) (h : lo ≤ hi) : lo ≤ npClip x lo hi :=
  le_min h (le_max_left _ _)

theorem relativistic_bounds (p : BlackHolePhysics) (bg : ℕ → ℕ → ℝ) (N : ℕ)
    (phase : ℝ) (i j : ℕ) :
    0 ≤ apply_relativistic_effects p bg N phase i j
      ∧ apply_relativistic_effects p bg N phase i j ≤ 2 := by
  unfold apply_relativistic_effects
  exact ⟨lo_le_npClip _ _ _ (by norm_num), npClip_le_hi _ _ _⟩

theorem glow_bounds (p : BlackHolePhysics) (N : ℕ) (phase : ℝ) (i j : ℕ) :
    0 ≤ create_photon_sphere_glow p N phase i j
      ∧ create_photon_sphere_glow p N phase i j ≤ 3 := by
  unfold create_photon_sphere_glow
  have he0 : 0 < Real.exp (-(|gridR N i j - 1.5 * p.rs|) ^ 2 / 0.5) :=
    Real.exp_pos _
  have he1 : Real.exp (-(|gridR N i j - 1.5 * p.rs|) ^ 2 / 0.5) ≤ 1 := by
    rw [Real.exp_le_one_iff]
    have h := sq_nonneg (|gridR N i j - 1.5 * p.rs|)
    have hdiv : -(|gridR N i j - 1.5 * p.rs|) ^ 2 / 0.5
        = -(2 * |gridR N i j - 1.5 * p.rs| ^ 2) := by ring
    rw [hdiv]
    linarith
  have hs1 : Real.sin (3 * atan2 (gridCoord N i) (gridCoord N j) + phase * 4) ≤ 1 :=
    Real.sin_le_one _
  have hs2 : -1 ≤ Real.sin (3 * atan2 (gridCoord N i) (gridCoord N j) + phase * 4) :=
    Real.neg_one_le_sin _
  constructor
  · nlinarith
  · nlinarith [mul_nonneg (sub_nonneg.2 he1)
      (by nlinarith :
        (0:ℝ) ≤ 2 + Real.sin (3 * atan2 (gridCoord N i) (gridCoord N j) + phase * 4))]

/-- Claim C2: for every configuration and rotation phase, every cell of the
final output whose true radius is at most rs is exactly 0 (final masking),
and every cell with radius below 1.1 * rs is already assigned 0 at the
background-lookup stage by the early horizon exit. -/
theorem C2_horizon_invariant (p : BlackHolePhysics) (bg : ℕ → ℕ → ℝ) (N : ℕ)
    (phase : ℝ) (i j : ℕ) :
    (gridR N i j ≤ p.rs → finalCell p bg N phase i j = 0)
      ∧ (gridR N i j < p.rs * 1.1 →
          calculate_lensed_image p bg N phase i j = 0) := by
  constructor
  · intro h
    unfold finalCell
    rw [if_pos h]
  · intro h
    unfold calculate_lensed_image
    rw [if_pos h]

/-- Witness for C2: with grid size 9 the centre cell (4, 4) sits at the
origin, inside both horizon margins, and both stages yield 0 there. -/
theorem C2_horizon_invariant_witness :
    gridR 9 4 4 ≤ animPhysics.rs ∧ gridR 9 4 4 < animPhysics.rs * 1.1
      ∧ finalCell animPhysics (backgroundPattern 9) 9 0 4 4 = 0
      ∧ calculate_lensed_image animPhysics (backgroundPattern 9) 9 0 4 4 = 0 := by
  have hc : gridCoord 9 4 = 0 := by norm_num [gridCoord]
  have hR : gridR 9 4 4 = 0 := by
    unfold gridR
    rw [hc]
    norm_num
  have hrs : animPhysics.rs = 4 := by
    norm_num [animPhysics, BlackHolePhysics.init]
  have h1 : gridR 9 4 4 ≤ animPhysics.rs := by rw [hR, hrs]; norm_num
  have h2 : gridR 9 4 4 < animPhysics.rs * 1.1 := by rw [hR, hrs]; norm_num
  exact ⟨h1, h2,
    (C2_horizon_invariant animPhysics (backgroundPattern 9) 9 0 4 4).1 h1,
    (C2_horizon_invariant animPhysics (backgroundPattern 9) 9 0 4 4).2 h2⟩

/-- Counterexample to claim C4: the constructors reject nothing.  A negative
mass is accepted and stored, yielding a negative horizon radius, a spin of
1.5 outside [0, 1) is accepted, and a renderer with grid resolution 0 is
constructed without complaint. -/
theorem C4_counterexample :
    (BlackHolePhysics.init (-1) 0.7).rs = -2
      ∧ (BlackHolePhysics.init 1 1.5).a = 1.5
      ∧ (Renderer.init 0).grid_size = 0 := by
  refine ⟨?_, ?_, rfl⟩ <;> norm_num [BlackHolePhysics.init, Renderer.init]

/-- Claim C4 amended: the constructors perform no validation at all.  Every
real mass and spin is accepted and stored verbatim (a = spin * mass,
rs = 2 * mass, c = 1), and every grid size is accepted; out-of-range
configuration is neither rejected nor clamped. -/
theorem C4_no_validation :
    (∀ mass spin : ℝ,
        BlackHolePhysics.init mass spin = ⟨mass, spin * mass, 2 * mass, 1⟩)
      ∧ (∀ N : ℕ,
          Renderer.init N = ⟨animPhysics, N, fun i j => backgroundPattern N i j⟩) :=
  ⟨fun _ _ => rfl, fun _ => rfl⟩

/-- Claim C9: the render pipeline is deterministic and stateless: a frame
call returns the renderer state unchanged, the frame is a pure function of
the state and the phase, and a repeated call with the same phase on the
resulting state produces an identical frame. -/
theorem C9_deterministic_stateless (s : Renderer) (phase : ℝ) :
    (render s phase).1 = s
      ∧ (render s phase).2
          = (fun i j => finalCell s.black_hole s.background s.grid_size phase i j)
      ∧ (render ((render s phase).1) phase).2 = (render s phase).2 :=
  ⟨rfl, rfl, rfl⟩

/-- Counterexample to claim C1: the clip to [0, 2] happens inside
apply_relativistic_effects, before the photon glow is added, so final cells
can exceed 2.  With grid size 9, cell (4, 7) sits at (x, y) = (6, 0), exactly
on the photon ring of radius 1.5 * rs = 6; at rotation phase pi / 8 the glow
there equals 3, so the final cell value is at least 3. -/
theorem C1_counterexample :
    2 < finalCell animPhysics (backgroundPattern 9) 9 (π / 8) 4 7 := by
  have hx : gridCoord 9 7 = 6 := by norm_num [gridCoord]
  have hy : gridCoord 9 4 = 0 := by norm_num [gridCoord]
  have hR : gridR 9 4 7 = 6 := by
    unfold gridR
    rw [hx, hy]
    rw [show (6:ℝ) ^ 2 + 0 ^ 2 = 6 ^ 2 by norm_num]
    exact Real.sqrt_sq (by norm_num)
  have hrs : animPhysics.rs = 4 := by
    norm_num [animPhysics, BlackHolePhysics.init]
  have hat : atan2 0 6 = 0 := by
    unfold atan2
    rw [if_pos (by norm_num : (0:ℝ) < 6)]
    norm_num
  have hglow : create_photon_sphere_glow animPhysics 9 (π / 8) 4 7 = 3 := by
    unfold create_photon_sphere_glow
    rw [hR, hx, hy, hrs, hat]
    rw [show 3 * (0:ℝ) + π / 8 * 4 = π / 2 by ring, Real.sin_pi_div_two]
    norm_num [Real.exp_zero]
  have hrel := relativistic_bounds animPhysics (backgroundPattern 9) 9 (π / 8) 4 7
  unfold finalCell
  rw [hR, hrs, if_neg (by norm_num : ¬ (6:ℝ) ≤ 4), hglow]
  linarith [hrel.1]

/-- Claim C1 amended: the clamp to [0, 2] is applied at the end of the
relativistic compositing step, before the photon-ring term is added; the
final cell value is the clipped relativistic value plus the glow, so every
cell of the final frame lies in [0, 5] (masked cells are exactly 0). -/
theorem C1_final_bounds (p : BlackHolePhysics) (bg : ℕ → ℕ → ℝ) (N : ℕ)
    (phase : ℝ) (i j : ℕ) :
    0 ≤ finalCell p bg N phase i j ∧ finalCell p bg N phase i j ≤ 5 := by
  unfold finalCell
  split_ifs with h
  · norm_num
  · have h1 := relativistic_bounds p bg N phase i j
    have h2 := glow_bounds p N phase i j
    constructor <;> linarith [h1.1, h1.2, h2.1, h2.2]

/-- Claim C10: for every grid point and rotation phase the photon-ring
overlay lies in [0, 3], and the sum of the clipped relativistic image and
the glow, before final masking, is at most 5. -/
theorem C10_glow_bounds (p : BlackHolePhysics) (bg : ℕ → ℕ → ℝ) (N : ℕ)
    (phase : ℝ) (i j : ℕ) :
    0 ≤ create_photon_sphere_glow p N phase i j
      ∧ create_photon_sphere_glow p N phase i j ≤ 3
      ∧ apply_relativistic_effects p bg N phase i j
          + create_photon_sphere_glow p N phase i j ≤ 5 := by
  have h1 := glow_bounds p N phase i j
  have h2 := relativistic_bounds p bg N phase i j
  exact ⟨h1.1, h1.2, by linarith [h1.2, h2.2]⟩

/-- Counterexample to claim C3: doppler_shift applies no 0.1 floor to the
radius.  At the origin its omega denominator r^3 + a^2 * r is exactly 0 (the
implementation divides by zero there, which floating point turns into NaN),
and the function disagrees with the spec-described floored variant: at
(x, y) = (0, 0) with rotation angle pi / 2 the code value (under the real
convention that division by zero yields 0) is 1, while the floored variant
mandated by the claim yields 0.3. -/
theorem C3_counterexample :
    Real.sqrt ((0:ℝ) ^ 2 + 0 ^ 2) ^ 3
        + animPhysics.a ^ 2 * Real.sqrt ((0:ℝ) ^ 2 + 0 ^ 2) = 0
      ∧ doppler_shift animPhysics 0 0 (π / 2) = 1
      ∧ doppler_shift_floored animPhysics 0 0 (π / 2) = 0.3
      ∧ doppler_shift animPhysics 0 0 (π / 2)
          ≠ doppler_shift_floored animPhysics 0 0 (π / 2) := by
  have hs : Real.sqrt ((0:ℝ) ^ 2 + 0 ^ 2) = 0 := by norm_num
  have hat : atan2 0 0 = 0 := by norm_num [atan2]
  refine ⟨by rw [hs]; ring, ?_, ?_, ?_⟩
  · unfold doppler_shift
    rw [hs]
    norm_num [npClip]
  · unfold doppler_shift_floored
    rw [hs, hat]
    rw [show max (0:ℝ) 0.1 = 0.1 by norm_num]
    rw [zero_add, Real.sin_pi_div_two]
    norm_num [animPhysics, BlackHolePhysics.init, npClip, max_def, min_def]
  · unfold doppler_shift doppler_shift_floored
    rw [hs, hat]
    rw [show max (0:ℝ) 0.1 = 0.1 by norm_num]
    rw [zero_add, Real.sin_pi_div_two]
    norm_num [animPhysics, BlackHolePhysics.init, npClip, max_def, min_def]

/-- Claim C3 amended: doppler_shift applies no floor to the radius (the 0.1
floor exists only in gravitational_lensing), and its omega denominator
r^3 + a^2 * r is unguarded at the origin; away from the origin the final
clip bounds the returned factor to [0.3, 2.0]. -/
theorem C3_doppler_range (p : BlackHolePhysics) (x y rot : ℝ)
    (_h : x ≠ 0 ∨ y ≠ 0) :
    0.3 ≤ doppler_shift p x y rot ∧ doppler_shift p x y rot ≤ 2.0 := by
  unfold doppler_shift
  exact ⟨lo_le_npClip _ _ _ (by norm_num), npClip_le_hi _ _ _⟩

/-- Witness for C3 amended, at the on-axis point (1, 0) with phase 0. -/
theorem C3_doppler_range_witness :
    ((1:ℝ) ≠ 0 ∨ (0:ℝ) ≠ 0)
      ∧ 0.3 ≤ doppler_shift animPhysics 1 0 0
      ∧ doppler_shift animPhysics 1 0 0 ≤ 2.0 :=
  ⟨Or.inl one_ne_zero, C3_doppler_range animPhysics 1 0 0 (Or.inl one_ne_zero)⟩

theorem deflectionMag_eq (p : BlackHolePhysics) (x y : ℝ) (hM : 0 < p.M)
    (hr : 0.1 ≤ Real.sqrt (x ^ 2 + y ^ 2)) :
    deflectionMag p x y = 4 * p.M / Real.sqrt (x ^ 2 + y ^ 2) := by
  have hr0 : 0 < Real.sqrt (x ^ 2 + y ^ 2) := lt_of_lt_of_le (by norm_num) hr
  have hsq : Real.sqrt (x ^ 2 + y ^ 2) ^ 2 = x ^ 2 + y ^ 2 :=
    Real.sq_sqrt (by positivity)
  unfold deflectionMag gravitational_lensing
  rw [max_eq_left hr]
  set r := Real.sqrt (x ^ 2 + y ^ 2) with hrdef
  have hexpand : (-(4 * p.M / r) * (y / r)) ^ 2 + (4 * p.M / r * (x / r)) ^ 2
      = (4 * p.M / r) ^ 2 * ((x ^ 2 + y ^ 2) / r ^ 2) := by ring
  rw [hexpand, ← hsq, div_self (pow_ne_zero 2 (ne_of_gt hr0)), mul_one]
  exact Real.sqrt_sq (by positivity)

/-- Counterexample to claim C5: the deflection magnitude does not strictly
decrease with the radius.  The radius of (0, 0) is smaller than the radius of
(1, 0), yet the deflection magnitude at (0, 0) is 0 (the 0.1 floor makes the
deflection vanish at the origin) while at (1, 0) it is 8. -/
theorem C5_counterexample :
    Real.sqrt ((0:ℝ) ^ 2 + 0 ^ 2) < Real.sqrt ((1:ℝ) ^ 2 + 0 ^ 2)
      ∧ deflectionMag animPhysics 0 0 < deflectionMag animPhysics 1 0 := by
  have h0 : Real.sqrt ((0:ℝ) ^ 2 + 0 ^ 2) = 0 := by norm_num
  have h1 : Real.sqrt ((1:ℝ) ^ 2 + 0 ^ 2) = 1 := by norm_num
  constructor
  · rw [h0, h1]; norm_num
  · have hm0 : deflectionMag animPhysics 0 0 = 0 := by
      unfold deflectionMag gravitational_lensing
      rw [h0]
      norm_num
    have hm1 : deflectionMag animPhysics 1 0 = 8 := by
      rw [deflectionMag_eq animPhysics 1 0
        (by norm_num [animPhysics, BlackHolePhysics.init]) (by rw [h1]; norm_num), h1]
      norm_num [animPhysics, BlackHolePhysics.init]
    rw [hm0, hm1]
    norm_num

/-- Claim C5 amended: the deflection magnitude equals 4 M r / max (r, 0.1)^2,
so it strictly decreases with the radius only from the 0.1 floor upward
(where it equals 4 M / r); below the floor it grows linearly, and at the
origin the deflection is the zero vector (well-defined thanks to the floor). -/
theorem C5_deflection_decreasing :
    (∀ (p : BlackHolePhysics) (x1 y1 x2 y2 : ℝ), 0 < p.M →
        0.1 ≤ Real.sqrt (x1 ^ 2 + y1 ^ 2) →
        Real.sqrt (x1 ^ 2 + y1 ^ 2) < Real.sqrt (x2 ^ 2 + y2 ^ 2) →
        deflectionMag p x2 y2 < deflectionMag p x1 y1)
      ∧ (∀ p : BlackHolePhysics, gravitational_lensing p 0 0 = (0, 0)) := by
  constructor
  · intro p x1 y1 x2 y2 hM h1 hlt
    have h2 : 0.1 ≤ Real.sqrt (x2 ^ 2 + y2 ^ 2) := le_of_lt (lt_of_le_of_lt h1 hlt)
    rw [deflectionMag_eq p x1 y1 hM h1, deflectionMag_eq p x2 y2 hM h2]
    have hr1 : 0 < Real.sqrt (x1 ^ 2 + y1 ^ 2) := lt_of_lt_of_le (by norm_num) h1
    gcongr
  · intro p
    unfold gravitational_lensing
    norm_num

/-- Witness for C5 amended: moving from radius 1 to radius 2 strictly
decreases the deflection magnitude (from 8 to 4 with mass 2). -/
theorem C5_deflection_decreasing_witness :
    (0:ℝ) < animPhysics.M
      ∧ 0.1 ≤ Real.sqrt ((1:ℝ) ^ 2 + 0 ^ 2)
      ∧ Real.sqrt ((1:ℝ) ^ 2 + 0 ^ 2) < Real.sqrt ((2:ℝ) ^ 2 + 0 ^ 2)
      ∧ deflectionMag animPhysics 2 0 < deflectionMag animPhysics 1 0 := by
  have hM : (0:ℝ) < animPhysics.M := by norm_num [animPhysics, BlackHolePhysics.init]
  have h1 : Real.sqrt ((1:ℝ) ^ 2 + 0 ^ 2) = 1 := by norm_num
  have h2 : Real.sqrt ((2:ℝ) ^ 2 + 0 ^ 2) = 2 := by
    rw [show (2:ℝ) ^ 2 + 0 ^ 2 = 2 ^ 2 by norm_num]
    exact Real.sqrt_sq (by norm_num)
  have ha : 0.1 ≤ Real.sqrt ((1:ℝ) ^ 2 + 0 ^ 2) := by rw [h1]; norm_num
  have hb : Real.sqrt ((1:ℝ) ^ 2 + 0 ^ 2) < Real.sqrt ((2:ℝ) ^ 2 + 0 ^ 2) := by
    rw [h1, h2]; norm_num
  exact ⟨hM, ha, hb, C5_deflection_decreasing.1 animPhysics 1 0 2 0 hM ha hb⟩

/-- Claim C6: for every r > 0 the time dilation returned by
schwarzschild_metric_effects is sqrt (max (1 - rs / r) 0.01), lies in
[sqrt 0.01, 1], is non-decreasing in r beyond rs, and tends to 1 as r grows
without bound. -/
theorem C6_time_dilation :
    (∀ (p : BlackHolePhysics) (r : ℝ),
        (schwarzschild_metric_effects p r).1 = Real.sqrt (max (1 - p.rs / r) 0.01))
      ∧ (∀ (p : BlackHolePhysics) (r : ℝ), 0 < p.rs → 0 < r →
          Real.sqrt 0.01 ≤ (schwarzschild_metric_effects p r).1
            ∧ (schwarzschild_metric_effects p r).1 ≤ 1)
      ∧ (∀ (p : BlackHolePhysics) (r1 r2 : ℝ), 0 < p.rs → p.rs < r1 → r1 ≤ r2 →
          (schwarzschild_metric_effects p r1).1 ≤ (schwarzschild_metric_effects p r2).1)
      ∧ (∀ p : BlackHolePhysics,
          Tendsto (fun r => (schwarzschild_metric_effects p r).1) atTop (nhds 1)) := by
  refine ⟨fun p r => rfl, ?_, ?_, ?_⟩
  · intro p r hrs hr
    constructor
    · exact Real.sqrt_le_sqrt (le_max_right _ _)
    · have hmax1 : max (1 - p.rs / r) 0.01 ≤ 1 := by
        apply max_le
        · have : 0 < p.rs / r := div_pos hrs hr
          linarith
        · norm_num
      calc (schwarzschild_metric_effects p r).1
          = Real.sqrt (max (1 - p.rs / r) 0.01) := rfl
        _ ≤ Real.sqrt 1 := Real.sqrt_le_sqrt hmax1
        _ = 1 := Real.sqrt_one
  · intro p r1 r2 hrs h1 h12
    apply Real.sqrt_le_sqrt
    apply max_le_max _ (le_refl _)
    have hr1 : 0 < r1 := lt_trans hrs h1
    have h : p.rs / r2 ≤ p.rs / r1 := by gcongr
    linarith
  · intro p
    have h1 : Tendsto (fun r : ℝ => p.rs / r) atTop (nhds 0) :=
      tendsto_const_nhds.div_atTop tendsto_id
    have h2 : Tendsto (fun r : ℝ => 1 - p.rs / r) atTop (nhds 1) := by
      have hc : Tendsto (fun _ : ℝ => (1:ℝ)) atTop (nhds 1) := tendsto_const_nhds
      simpa using hc.sub h1
    have h3 : Tendsto (fun r : ℝ => max (1 - p.rs / r) 0.01) atTop (nhds 1) := by
      have hc : Tendsto (fun _ : ℝ => (0.01:ℝ)) atTop (nhds 0.01) := tendsto_const_nhds
      have hmax := h2.max hc
      rw [show max (1:ℝ) 0.01 = 1 by norm_num] at hmax
      exact hmax
    have h4 := (Real.continuous_sqrt.tendsto 1).comp h3
    rw [Real.sqrt_one] at h4
    exact h4

/-- Witness for C6: with the hardcoded physics (rs = 4) at r = 8 the range
bounds hold, the monotonicity step from r = 8 to r = 16 holds, and r = 8
lies beyond the horizon. -/
theorem C6_time_dilation_witness :
    0 < animPhysics.rs ∧ (0:ℝ) < 8 ∧ animPhysics.rs < 8 ∧ (8:ℝ) ≤ 16
      ∧ (Real.sqrt 0.01 ≤ (schwarzschild_metric_effects animPhysics 8).1
          ∧ (schwarzschild_metric_effects animPhysics 8).1 ≤ 1)
      ∧ (schwarzschild_metric_effects animPhysics 8).1
          ≤ (schwarzschild_metric_effects animPhysics 16).1 := by
  have hrs : animPhysics.rs = 4 := by norm_num [animPhysics, BlackHolePhysics.init]
  have h0 : 0 < animPhysics.rs := by rw [hrs]; norm_num
  have h8 : animPhysics.rs < 8 := by rw [hrs]; norm_num
  exact ⟨h0, by norm_num, h8, by norm_num,
    C6_time_dilation.2.1 animPhysics 8 h0 (by norm_num),
    C6_time_dilation.2.2.1 animPhysics 8 16 h0 h8 (by norm_num)⟩

/-- Claim C7: whenever the source position lies outside the open grid domain,
or the truncated index falls outside [0, N), the looked-up background
intensity is 0; and in every case the lookup either yields 0 or reads the
background at indices strictly below N (no wraparound, total function). -/
theorem C7_lookup_safe (bg : ℕ → ℕ → ℝ) (N : ℕ) (sx sy : ℝ) :
    (¬(|sx| < 8 ∧ |sy| < 8) → lookupBackground bg N sx sy = 0)
      ∧ (¬(0 ≤ truncInt ((sx + 8) * (N : ℝ) / 16)
            ∧ truncInt ((sx + 8) * (N : ℝ) / 16) < (N : ℤ)
            ∧ 0 ≤ truncInt ((sy + 8) * (N : ℝ) / 16)
            ∧ truncInt ((sy + 8) * (N : ℝ) / 16) < (N : ℤ)) →
          lookupBackground bg N sx sy = 0)
      ∧ (lookupBackground bg N sx sy = 0
          ∨ ∃ gx gy : ℕ, gx < N ∧ gy < N
              ∧ lookupBackground bg N sx sy = bg gy gx) := by
  unfold lookupBackground
  refine ⟨fun h => if_neg h, fun h => ?_, ?_⟩
  · by_cases h1 : |sx| < 8 ∧ |sy| < 8
    · rw [if_pos h1, if_neg h]
    · rw [if_neg h1]
  · by_cases h1 : |sx| < 8 ∧ |sy| < 8
    · by_cases h2 : 0 ≤ truncInt ((sx + 8) * (N : ℝ) / 16)
          ∧ truncInt ((sx + 8) * (N : ℝ) / 16) < (N : ℤ)
          ∧ 0 ≤ truncInt ((sy + 8) * (N : ℝ) / 16)
          ∧ truncInt ((sy + 8) * (N : ℝ) / 16) < (N : ℤ)
      · right
        refine ⟨(truncInt ((sx + 8) * (N : ℝ) / 16)).toNat,
          (truncInt ((sy + 8) * (N : ℝ) / 16)).toNat, ?_, ?_, ?_⟩
        · have ha := h2.1
          have hb := h2.2.1
          omega
        · have ha := h2.2.2.1
          have hb := h2.2.2.2
          omega
        · rw [if_pos h1, if_pos h2]
      · left
        rw [if_pos h1, if_neg h2]
    · left
      exact if_neg h1

/-- Witness for C7: the source position (9, 0) lies outside the domain of
half-extent 8, so the lookup with grid size 5 yields 0. -/
theorem C7_lookup_safe_witness :
    ¬(|(9:ℝ)| < 8 ∧ |(0:ℝ)| < 8)
      ∧ lookupBackground (backgroundPattern 5) 5 9 0 = 0 :=
  ⟨by norm_num, (C7_lookup_safe (backgroundPattern 5) 5 9 0).1 (by norm_num)⟩

/-- Claim C8: the background field is exactly
0.5 + 0.3 sin (8x) sin (8y) + 0.2 sin (5.6x) cos (10.4y)
+ 0.2 sin (2r) exp (-r / 10) at every cell, it is installed once by the
renderer constructor, and rendering a frame leaves it unchanged. -/
theorem C8_background_formula :
    (∀ N i j : ℕ, backgroundPattern N i j
        = 0.5 + 0.3 * Real.sin (8 * gridCoord N j) * Real.sin (8 * gridCoord N i)
          + 0.2 * Real.sin (5.6 * gridCoord N j) * Real.cos (10.4 * gridCoord N i)
          + 0.2 * Real.sin (2 * gridR N i j) * Real.exp (-gridR N i j / 10))
      ∧ (∀ N : ℕ, (Renderer.init N).background = fun i j => backgroundPattern N i j)
      ∧ (∀ (s : Renderer) (phase : ℝ), ((render s phase).1).background = s.background) := by
  refine ⟨?_, fun N => rfl, fun s phase => rfl⟩
  intro N i j
  unfold backgroundPattern
  rw [show gridCoord N j * 8 = 8 * gridCoord N j by ring,
    show gridCoord N i * 8 = 8 * gridCoord N i by ring,
    show gridCoord N j * (8 * 0.7) = 5.6 * gridCoord N j by ring,
    show gridCoord N i * (8 * 1.3) = 10.4 * gridCoord N i by ring,
    show gridR N i j * 2 = 2 * gridR N i j by ring]
  ring
